import Mathlib

/-!
Verification of the ImunoEdge core against its specification.

Shallow embedding of `src/imunoedge/core/orchestrator.py`,
`src/imunoedge/core/telemetry.py` and `src/imunoedge/core/health.py`.
Python floats (timestamps, temperatures) are modelled as rationals;
OS-level nondeterminism (process polls, spawn results, wait timeouts,
filesystem observations) is passed in explicitly as observation records.
Fallible operations return `Except`.
-/

/-! ## Orchestrator data model (`orchestrator.py`) -/

/-- The `WorkerState` enum from `orchestrator.py`. -/
inductive WorkerState where
  | RUNNING
  | STOPPED
  | PAUSED
  | RESTARTING
  | FAILED
deriving DecidableEq, Repr

/-- The `WorkerProcess` dataclass from `orchestrator.py`.
The `process` handle (a `Popen` object in the source) is modelled by the
pid it wraps; `None` fields are `Option`. -/
structure WorkerProcess where
  name : String
  command : List String
  pid : Option Nat := none
  state : WorkerState := .STOPPED
  restart_count : Nat := 0
  essential : Bool := false
  max_restarts : Nat := 10
  process : Option Nat := none
  enable_heartbeat : Bool := false
  heartbeat_file : Option String := none
deriving DecidableEq, Repr

/-- Outcome of a `Popen.wait(timeout=...)` call: returns normally, raises
`subprocess.TimeoutExpired`, or raises `OSError`. -/
inductive WaitOutcome where
  | ok
  | timeout
  | oserror
deriving DecidableEq, Repr

/-- OS/filesystem observations consumed by `_stop_worker`:
whether `poll()` still reports the process running, the outcome of
`terminate(); wait(timeout=5)`, whether the `wait(timeout=2)` after
`kill()` itself times out, whether the heartbeat marker file exists,
and whether `unlink()` succeeds. -/
structure StopEnv where
  procRunning : Bool
  firstWait : WaitOutcome
  secondTimesOut : Bool
  beatExists : Bool
  unlinkOk : Bool
deriving DecidableEq, Repr

/-- Result of a completed `_stop_worker`: the mutated worker plus whether
the heartbeat marker file was actually removed from the filesystem. -/
structure StopResult where
  worker : WorkerProcess
  markerRemoved : Bool
deriving DecidableEq, Repr

/-- Model of `ProcessOrchestrator._stop_worker`.  Terminate, wait up to 5 s; on
timeout kill and wait up to 2 s; `OSError` is swallowed.  A
`TimeoutExpired` raised by the second wait is NOT caught by the
surrounding handlers and propagates (modelled as `Except.error`), in
which case the field-clearing lines are never reached. -/
def stop_worker (w : WorkerProcess) (env : StopEnv) : Except Unit StopResult := do
  if w.process.isSome && env.procRunning then
    match env.firstWait with
    | .ok => pure ()
    | .oserror => pure ()
    | .timeout => if env.secondTimesOut then throw () else pure ()
  let cleared : WorkerProcess :=
    { w with state := .STOPPED, pid := none, process := none }
  pure ⟨cleared, w.heartbeat_file.isSome && env.beatExists && env.unlinkOk⟩

/-- Model of `ProcessOrchestrator._start_worker`.  `spawn = some pid` models
`subprocess.Popen` succeeding with that pid; `spawn = none` models the
`OSError`/`SubprocessError` path (note it sets FAILED but touches neither
`pid` nor `process`). -/
def start_worker (w : WorkerProcess) (spawn : Option Nat) : Bool × WorkerProcess :=
  let w0 :=
    if w.enable_heartbeat then
      { w with heartbeat_file := some ("/tmp/imunoedge_" ++ w.name ++ ".beat") }
    else w
  match spawn with
  | some newPid =>
      (true, { w0 with process := some newPid, pid := some newPid, state := .RUNNING })
  | none => (false, { w0 with state := .FAILED })

/-- Observation of `heartbeat_file.stat().st_mtime`: either a modification
time or an `OSError` (file disappeared). -/
inductive BeatObs where
  | mtime (t : ℚ)
  | fsError
deriving DecidableEq, Repr

/-- Observations consumed by `_is_alive`: the `poll()` result, the
heartbeat-file stat, the current wall-clock time, and the environment for
the `_stop_worker` call made on zombie detection. -/
structure AliveObs where
  polledRunning : Bool
  beat : BeatObs
  now : ℚ
  stopEnv : StopEnv
deriving DecidableEq, Repr

/-- Model of `ProcessOrchestrator._is_alive`.  Dead handles and a negative poll are
not-alive; with heartbeat enabled, a marker older than 30 s (strictly)
triggers `_stop_worker` (zombie kill) and not-alive; an `OSError` reading
the marker is fail-open (alive).  An exception escaping the inner
`_stop_worker` propagates. -/
def is_alive (w : WorkerProcess) (obs : AliveObs) :
    Except Unit (Bool × WorkerProcess) := do
  match w.process, w.pid with
  | none, _ => pure (false, w)
  | _, none => pure (false, w)
  | some _, some _ =>
    if !obs.polledRunning then
      pure (false, w)
    else
      match w.enable_heartbeat, w.heartbeat_file with
      | true, some _ =>
        match obs.beat with
        | .mtime lastBeat =>
          if obs.now - lastBeat > 30 then do
            let r ← stop_worker w obs.stopEnv
            pure (false, r.worker)
          else
            pure (true, w)
        | .fsError => pure (true, w)
      | _, _ => pure (true, w)

/-- Observations for one watchdog pass over one worker: the `_is_alive`
observations plus the spawn result used if a restart is attempted. -/
structure TickObs where
  alive : AliveObs
  spawn : Option Nat
deriving DecidableEq, Repr

/-- Body of `ProcessOrchestrator._watchdog_loop` for a single worker on a
single tick: non-RUNNING workers are skipped; a dead worker gets
`restart_count` incremented, then either terminal FAILED (when
`restart_count ≥ max_restarts`; pid and process handle are left as they
were) or RESTARTING followed by an immediate respawn attempt. -/
def watchdog_step (w : WorkerProcess) (obs : TickObs) : Except Unit WorkerProcess := do
  if w.state ≠ .RUNNING then
    pure w
  else
    let (alive, w1) ← is_alive w obs.alive
    if alive then
      pure w1
    else
      let w2 := { w1 with restart_count := w1.restart_count + 1 }
      if w2.max_restarts ≤ w2.restart_count then
        pure { w2 with state := .FAILED }
      else
        pure (start_worker { w2 with state := .RESTARTING } obs.spawn).2

/-- The supervisor's worker table (`self._workers`), keyed by name. -/
abbrev Orchestrator := List (String × WorkerProcess)

/-- Dictionary lookup `self._workers.get(name)`. -/
def lookupWorker (orch : Orchestrator) (name : String) : Option WorkerProcess :=
  (orch.find? (fun p => p.1 = name)).map (·.2)

/-- In-place mutation of the named worker's record. -/
def updateWorker (orch : Orchestrator) (name : String) (w : WorkerProcess) :
    Orchestrator :=
  orch.map (fun p => if p.1 = name then (p.1, w) else p)

/-- Model of `ProcessOrchestrator.register_worker`: duplicate names are a
`ValueError`; otherwise a STOPPED record is created. -/
def register_worker (orch : Orchestrator) (name : String) (command : List String)
    (essential : Bool) (max_restarts : Nat) (enable_heartbeat : Bool) :
    Except String Orchestrator :=
  if (lookupWorker orch name).isSome then
    .error ("Worker " ++ name ++ " ja esta registrado")
  else
    .ok (orch ++ [(name,
      { name := name, command := command, essential := essential,
        max_restarts := max_restarts, enable_heartbeat := enable_heartbeat })])

/-- Model of `ProcessOrchestrator.start_all` (worker-table part): every STOPPED
worker is started; `spawn` gives the Popen outcome per worker name. -/
def start_all (orch : Orchestrator) (spawn : String → Option Nat) : Orchestrator :=
  orch.map (fun p =>
    if p.2.state = .STOPPED then (p.1, (start_worker p.2 (spawn p.1)).2) else p)

/-- One full watchdog pass over the table, worker by worker in table
order; an uncaught exception aborts the pass (the watchdog thread has no
handler around its loop body). -/
def watchdog_tick (orch : Orchestrator) (obs : String → TickObs) :
    Except Unit Orchestrator :=
  match orch with
  | [] => .ok []
  | p :: rest => do
      let w1 ← watchdog_step p.2 (obs p.1)
      let rest1 ← watchdog_tick rest obs
      pure ((p.1, w1) :: rest1)

/-- Model of `ProcessOrchestrator.pause_worker`.  Unknown name, essential worker,
non-RUNNING state, missing pid, and `os.kill` failure (`sigstopOk =
false`) all return `False` with no mutation. -/
def pause_worker (orch : Orchestrator) (name : String) (sigstopOk : Bool) :
    Bool × Orchestrator :=
  match lookupWorker orch name with
  | none => (false, orch)
  | some w =>
    if w.essential then (false, orch)
    else if w.state ≠ .RUNNING then (false, orch)
    else
      match w.pid with
      | none => (false, orch)
      | some _ =>
        if sigstopOk then
          (true, updateWorker orch name { w with state := .PAUSED })
        else (false, orch)

/-- Model of `ProcessOrchestrator.resume_worker`.  Unknown name or non-PAUSED
state, missing pid, and `os.kill` failure all return `False` with no
mutation. -/
def resume_worker (orch : Orchestrator) (name : String) (sigcontOk : Bool) :
    Bool × Orchestrator :=
  match lookupWorker orch name with
  | none => (false, orch)
  | some w =>
    if w.state ≠ .PAUSED then (false, orch)
    else
      match w.pid with
      | none => (false, orch)
      | some _ =>
        if sigcontOk then
          (true, updateWorker orch name { w with state := .RUNNING })
        else (false, orch)

/-! ## C7 / C10: pause and resume guards -/

/-- C7: For every worker with `essential = true`, in every worker state,
`pause_worker` returns failure and leaves the whole worker table — hence
the worker's state, pid and restart_count — unchanged. -/
theorem C7_essential_never_paused (orch : Orchestrator) (name : String)
    (w : WorkerProcess) (sigstopOk : Bool)
    (hlook : lookupWorker orch name = some w) (hess : w.essential = true) :
    pause_worker orch name sigstopOk = (false, orch) := by
  unfold pause_worker
  rw [hlook]
  simp [hess]

/-- An essential RUNNING worker, used to exercise the pause guard. -/
def camWorker : WorkerProcess :=
  { name := "cam", command := ["python3", "cam.py"], pid := some 7,
    state := .RUNNING, essential := true }

theorem C7_essential_never_paused_witness :
    lookupWorker [("cam", camWorker)] "cam" = some camWorker ∧
    camWorker.essential = true ∧
    pause_worker [("cam", camWorker)] "cam" true = (false, [("cam", camWorker)]) :=
  ⟨by decide, by decide,
    C7_essential_never_paused [("cam", camWorker)] "cam" camWorker true
      (by decide) (by decide)⟩

/-- C10: pause/resume on an unknown name return `False` and leave the
table unchanged (no exception is possible: every model path returns), and
`resume_worker` on a worker that is not PAUSED also returns `False`
without changing any worker. -/
theorem C10_unknown_and_not_paused_guards (orch : Orchestrator) (name : String)
    (sigstopOk sigcontOk : Bool) :
    (lookupWorker orch name = none →
      pause_worker orch name sigstopOk = (false, orch) ∧
      resume_worker orch name sigcontOk = (false, orch)) ∧
    (∀ w : WorkerProcess, lookupWorker orch name = some w → w.state ≠ .PAUSED →
      resume_worker orch name sigcontOk = (false, orch)) := by
  constructor
  · intro hnone
    constructor
    · unfold pause_worker; rw [hnone]
    · unfold resume_worker; rw [hnone]
  · intro w hsome hstate
    unfold resume_worker
    rw [hsome]
    simp [hstate]

/-- A non-essential RUNNING worker, used to exercise the resume guard. -/
def plainWorker : WorkerProcess :=
  { name := "w", command := ["echo"], pid := some 3, state := .RUNNING }

theorem C10_unknown_and_not_paused_guards_witness :
    (pause_worker [] "ghost" true = (false, []) ∧
      resume_worker [] "ghost" true = (false, [])) ∧
    resume_worker [("w", plainWorker)] "w" true = (false, [("w", plainWorker)]) := by
  refine ⟨(C10_unknown_and_not_paused_guards [] "ghost" true true).1 (by decide), ?_⟩
  exact (C10_unknown_and_not_paused_guards [("w", plainWorker)] "w" true true).2
    plainWorker (by decide) (by decide)

/-! ## Helper: completed stops -/

/-- Whenever the post-kill wait does not itself time out, `_stop_worker`
reaches its clearing lines: state becomes STOPPED, pid and handle become
null, and the heartbeat marker is removed exactly when it is referenced,
exists, and `unlink` succeeds. -/
theorem stop_worker_ok (w : WorkerProcess) (env : StopEnv)
    (h : ¬(env.firstWait = .timeout ∧ env.secondTimesOut = true)) :
    stop_worker w env =
      .ok ⟨{ w with state := .STOPPED, pid := none, process := none },
        w.heartbeat_file.isSome && env.beatExists && env.unlinkOk⟩ := by
  unfold stop_worker
  cases hpr : (w.process.isSome && env.procRunning) with
  | false => simp [hpr]; rfl
  | true =>
    cases henv : env.firstWait with
    | ok => simp [hpr]; rfl
    | oserror => simp [hpr]; rfl
    | timeout =>
      have hst : env.secondTimesOut = false := by
        cases hs : env.secondTimesOut with
        | false => rfl
        | true => exact absurd ⟨henv, hs⟩ h
      simp [hpr, hst]; rfl

/-! ## C4: graceful stop -/

/-- A non-essential RUNNING worker with a live process handle. -/
def runWorker : WorkerProcess :=
  { name := "r", command := ["sleep", "999"], pid := some 9,
    state := .RUNNING, process := some 9 }

/-- Stop environment in which the process survives SIGTERM for 5 s and
then also survives SIGKILL for 2 s. -/
def doubleTimeoutEnv : StopEnv :=
  { procRunning := true, firstWait := .timeout, secondTimesOut := true,
    beatExists := false, unlinkOk := true }

/-- C4 counterexample: when the 5-second wait after terminate times out
and the 2-second wait after kill also times out, `_stop_worker` raises
`TimeoutExpired` past its own boundary (the clearing of pid/handle is
never reached), refuting "never raises" as stated. -/
theorem C4_counterexample :
    stop_worker runWorker doubleTimeoutEnv = .error () ∧
    ∀ r : StopResult, stop_worker runWorker doubleTimeoutEnv ≠ .ok r := by
  refine ⟨rfl, ?_⟩
  intro r hcontra
  rw [show stop_worker runWorker doubleTimeoutEnv = .error () from rfl] at hcontra
  exact Except.noConfusion hcontra

/-- C4 (amended): for every worker and every stop environment in which
the post-kill 2-second wait does not itself time out, stopping requests
termination, escalates to kill only on timeout, raises nothing, always
clears pid and process handle (state becomes STOPPED), and removes the
heartbeat marker whenever one is referenced, exists, and `unlink`
succeeds. -/
theorem C4_stop_worker_graceful (w : WorkerProcess) (env : StopEnv)
    (h : ¬(env.firstWait = .timeout ∧ env.secondTimesOut = true)) :
    stop_worker w env =
      .ok ⟨{ w with state := .STOPPED, pid := none, process := none },
        w.heartbeat_file.isSome && env.beatExists && env.unlinkOk⟩ :=
  stop_worker_ok w env h

/-- Stop environment in which the terminate wait times out but the
post-kill wait succeeds. -/
def killOkEnv : StopEnv :=
  { procRunning := true, firstWait := .timeout, secondTimesOut := false,
    beatExists := true, unlinkOk := true }

theorem C4_stop_worker_graceful_witness :
    ¬(killOkEnv.firstWait = .timeout ∧ killOkEnv.secondTimesOut = true) ∧
    stop_worker runWorker killOkEnv =
      .ok ⟨{ runWorker with state := .STOPPED, pid := none, process := none },
        runWorker.heartbeat_file.isSome && killOkEnv.beatExists && killOkEnv.unlinkOk⟩ :=
  ⟨by decide, C4_stop_worker_graceful runWorker killOkEnv (by decide)⟩

/-! ## C3: zombie detection via heartbeat staleness -/

/-- A heartbeat-enabled RUNNING worker with a live handle. -/
def hbWorker : WorkerProcess :=
  { name := "hb", command := ["python3", "sensor.py"], pid := some 5,
    state := .RUNNING, process := some 5, enable_heartbeat := true,
    heartbeat_file := some "/tmp/imunoedge_hb.beat" }

/-- Observation in which the OS poll reports running and the heartbeat
marker's mtime is exactly 30 seconds in the past. -/
def staleObs30 : AliveObs :=
  { polledRunning := true, beat := .mtime 30, now := 60,
    stopEnv := { procRunning := true, firstWait := .ok,
                 secondTimesOut := false, beatExists := true, unlinkOk := true } }

/-- C3 counterexample: with the heartbeat marker exactly 30 seconds old
("at least 30 seconds in the past"), the code's strict `> 30.0`
comparison keeps the worker alive — `_is_alive` returns `True` and no
termination happens, refuting the claim at the 30-second boundary. -/
theorem C3_counterexample :
    staleObs30.now - 30 ≥ 30 ∧
    is_alive hbWorker staleObs30 = .ok (true, hbWorker) := by
  refine ⟨by norm_num [staleObs30], ?_⟩
  have h : ¬((60 : ℚ) - 30 > 30) := by norm_num
  simp only [is_alive, hbWorker, staleObs30]
  rw [if_neg h]
  rfl

/-- C3 (amended): for every heartbeat-enabled worker whose OS poll
reports it still running, if the heartbeat marker's mtime is MORE than 30
seconds in the past (strictly), `_is_alive` returns false and the worker
is force-terminated (state STOPPED, pid and handle cleared) provided the
stop itself completes; if reading the marker raises `OSError` (file
disappeared), `_is_alive` returns true with the worker untouched
(fail-open). -/
theorem C3_zombie_detection (w : WorkerProcess) (obs : AliveObs) (p q : Nat)
    (f : String)
    (hproc : w.process = some p) (hpid : w.pid = some q)
    (hhb : w.enable_heartbeat = true) (hfile : w.heartbeat_file = some f)
    (hpoll : obs.polledRunning = true)
    (hstop : ¬(obs.stopEnv.firstWait = .timeout ∧ obs.stopEnv.secondTimesOut = true)) :
    (∀ lastBeat : ℚ, obs.beat = .mtime lastBeat → obs.now - lastBeat > 30 →
      is_alive w obs =
        .ok (false, { w with state := .STOPPED, pid := none, process := none })) ∧
    (obs.beat = .fsError → is_alive w obs = .ok (true, w)) := by
  obtain ⟨nm, cmd, wpid, wstate, rc, ess, mr, wproc, whb, whf⟩ := w
  obtain ⟨pr, beat, tnow, senv⟩ := obs
  simp only at hproc hpid hhb hfile hpoll hstop
  subst hproc hpid hhb hfile hpoll
  constructor
  · intro lastBeat hbeat h30
    simp only at hbeat h30
    subst hbeat
    unfold is_alive
    simp only
    rw [if_pos h30, stop_worker_ok _ _ hstop]
    rfl
  · intro hbeat
    simp only at hbeat
    subst hbeat
    rfl

/-- Observation with a marker 31 seconds stale (kill path). -/
def staleObs31 : AliveObs :=
  { polledRunning := true, beat := .mtime 29, now := 60,
    stopEnv := { procRunning := true, firstWait := .ok,
                 secondTimesOut := false, beatExists := true, unlinkOk := true } }

/-- Observation in which the heartbeat file has disappeared. -/
def goneBeatObs : AliveObs :=
  { polledRunning := true, beat := .fsError, now := 60,
    stopEnv := { procRunning := true, firstWait := .ok,
                 secondTimesOut := false, beatExists := false, unlinkOk := true } }

theorem C3_zombie_detection_witness :
    ((60 : ℚ) - 29 > 30 ∧
      is_alive hbWorker staleObs31 =
        .ok (false, { hbWorker with state := .STOPPED, pid := none, process := none })) ∧
    is_alive hbWorker goneBeatObs = .ok (true, hbWorker) := by
  refine ⟨⟨by norm_num, ?_⟩, ?_⟩
  · exact (C3_zombie_detection hbWorker staleObs31 5 5 "/tmp/imunoedge_hb.beat"
      rfl rfl rfl rfl rfl (by decide)).1 29 rfl (by norm_num [staleObs31])
  · exact (C3_zombie_detection hbWorker goneBeatObs 5 5 "/tmp/imunoedge_hb.beat"
      rfl rfl rfl rfl rfl (by decide)).2 rfl

/-! ## C1 / C2: restart ceiling and the FAILED transition -/

/-- Worker table right after `register_worker("w", ["echo","x"],
max_restarts=1)` on a fresh orchestrator. -/
def c1Registered : Orchestrator :=
  [("w", { name := "w", command := ["echo", "x"], max_restarts := 1 })]

/-- Spawn environment: every Popen succeeds with pid 100. -/
def spawn100 : String → Option Nat := fun _ => some 100

/-- Table after `start_all`. -/
def c1Started : Orchestrator := start_all c1Registered spawn100

/-- Tick observation for a worker whose process has exited (poll reports
not running). -/
def deadTickObs : TickObs :=
  { alive := { polledRunning := false, beat := .fsError, now := 0,
               stopEnv := { procRunning := false, firstWait := .ok,
                            secondTimesOut := false, beatExists := false,
                            unlinkOk := true } },
    spawn := some 101 }

/-- The worker record produced by the first watchdog tick after the
process died: FAILED, restart_count 1, and — as the code never clears
them on this path — the stale pid and process handle. -/
def c1FailedWorker : WorkerProcess :=
  { name := "w", command := ["echo", "x"], pid := some 100, state := .FAILED,
    restart_count := 1, max_restarts := 1, process := some 100 }

/-- C1 counterexample: in the claim's own scenario (`max_restarts = 1`,
heartbeat disabled), after `start_all` the worker is RUNNING with pid
100, but the FIRST detected death already gives `restart_count = 1 ≥
max_restarts = 1`, so one watchdog tick moves the worker directly to
FAILED — not to RESTARTING as claimed. -/
theorem C1_counterexample :
    register_worker [] "w" ["echo", "x"] false 1 false = .ok c1Registered ∧
    lookupWorker c1Started "w" =
      some { name := "w", command := ["echo", "x"], pid := some 100,
             state := .RUNNING, max_restarts := 1, process := some 100 } ∧
    watchdog_tick c1Started (fun _ => deadTickObs) = .ok [("w", c1FailedWorker)] ∧
    c1FailedWorker.state = .FAILED ∧ c1FailedWorker.state ≠ .RESTARTING :=
  ⟨rfl, rfl, rfl, rfl, by decide⟩

/-- C1 (amended): for a worker registered with `max_restarts = 1` and
heartbeat disabled, after `start_all` the worker is RUNNING with a
non-null pid; once its process exits and one watchdog tick elapses the
worker transitions directly to terminal FAILED (`restart_count` reaches
`max_restarts` on the first detected death); RESTARTING is entered on a
death only while the incremented `restart_count` is still below
`max_restarts`. -/
theorem C1_first_death_fails (name : String) (cmd : List String) (pid : Nat)
    (spawn : String → Option Nat) (obs : String → TickObs) (orch1 : Orchestrator)
    (hreg : register_worker [] name cmd false 1 false = .ok orch1)
    (hspawn : spawn name = some pid)
    (hdead : (obs name).alive.polledRunning = false) :
    lookupWorker (start_all orch1 spawn) name =
      some { name := name, command := cmd, pid := some pid, state := .RUNNING,
             restart_count := 0, max_restarts := 1, process := some pid } ∧
    watchdog_tick (start_all orch1 spawn) obs =
      .ok [(name, { name := name, command := cmd, pid := some pid,
                    state := .FAILED, restart_count := 1, max_restarts := 1,
                    process := some pid })] := by
  have horch : orch1 = [(name, { name := name, command := cmd, max_restarts := 1 })] := by
    simp [register_worker, lookupWorker] at hreg
    exact hreg.symm
  subst horch
  have hstart : start_all [(name, { name := name, command := cmd, max_restarts := 1 })] spawn =
      [(name, { name := name, command := cmd, pid := some pid, state := .RUNNING,
                restart_count := 0, max_restarts := 1, process := some pid })] := by
    simp [start_all, start_worker, hspawn]
  rw [hstart]
  constructor
  · simp [lookupWorker]
  · simp [watchdog_tick, watchdog_step, is_alive, hdead]

theorem C1_first_death_fails_witness :
    lookupWorker (start_all c1Registered spawn100) "w" =
      some { name := "w", command := ["echo", "x"], pid := some 100,
             state := .RUNNING, restart_count := 0, max_restarts := 1,
             process := some 100 } ∧
    watchdog_tick (start_all c1Registered spawn100) (fun _ => deadTickObs) =
      .ok [("w", { name := "w", command := ["echo", "x"], pid := some 100,
                   state := .FAILED, restart_count := 1, max_restarts := 1,
                   process := some 100 })] :=
  C1_first_death_fails "w" ["echo", "x"] 100 spawn100 (fun _ => deadTickObs)
    c1Registered rfl rfl rfl

/-- C2 (code bug): a reachable state violating the claimed invariant.
After registering one worker with `max_restarts = 1`, starting all
(RUNNING, pid 100), and one watchdog tick during which the process has
exited, the worker is FAILED yet still carries the dead pid and process
handle — the FAILED transition in `_watchdog_loop` never clears them,
contradicting `pid`/`handle` non-null iff state in
RUNNING/PAUSED/RESTARTING (and the dataclass's own "None se não estiver
rodando" documentation). -/
theorem C2_failed_worker_keeps_stale_pid :
    watchdog_tick c1Started (fun _ => deadTickObs) = .ok [("w", c1FailedWorker)] ∧
    c1FailedWorker.state = .FAILED ∧
    c1FailedWorker.pid = some 100 ∧
    c1FailedWorker.process = some 100 :=
  ⟨rfl, rfl, rfl, rfl⟩

/-! ## Telemetry data model (`telemetry.py`) -/

/-- JSON values, the codomain of `json.dumps`/`json.loads`.  Python
floats are rationals; objects are key/value lists. -/
inductive Json where
  | null
  | bool (b : Bool)
  | num (q : ℚ)
  | str (s : String)
  | arr (elems : List Json)
  | obj (fields : List (String × Json))

/-- The frozen `TelemetryPayload` dataclass. -/
structure TelemetryPayload where
  device_id : String
  timestamp : ℚ
  data : List (String × Json)
  payload_id : String

/-- Serialization performed by `_store_locally`:
`json.dumps(asdict(payload))`, at the JSON-value level. -/
def payloadToJson (p : TelemetryPayload) : Json :=
  .obj [("device_id", .str p.device_id), ("timestamp", .num p.timestamp),
        ("data", .obj p.data), ("payload_id", .str p.payload_id)]

/-- Key lookup in a parsed JSON object. -/
def jsonLookup (fields : List (String × Json)) (key : String) : Option Json :=
  (fields.find? (fun q => q.1 = key)).map (·.2)

/-- Deserialization performed by `_flush_buffer`:
`TelemetryPayload(**json.loads(payload_json))` — all four dataclass
fields are extracted from the parsed object. -/
def payloadFromJson (j : Json) : Option TelemetryPayload :=
  match j with
  | .obj fields =>
    match jsonLookup fields "device_id", jsonLookup fields "timestamp",
          jsonLookup fields "data", jsonLookup fields "payload_id" with
    | some (.str d), some (.num ts), some (.obj dat), some (.str pi) =>
        some { device_id := d, timestamp := ts, data := dat, payload_id := pi }
    | _, _, _, _ => none
  | _ => none

/-- One row of the `telemetry_queue` table: rowid, the serialized payload
(`payload_json TEXT`), and `created_at`. -/
structure BufferRecord where
  id : Nat
  payload_json : Json
  created_at : ℚ

/-- The SQLite buffer: the autoincrement counter and the rows in
insertion (rowid) order. -/
structure BufState where
  nextId : Nat
  rows : List BufferRecord

/-- One row persisted for a payload at time `now`
(`INSERT INTO telemetry_queue (payload_json, created_at)`). -/
def storePayload (p : TelemetryPayload) (now : ℚ) (rowId : Nat) : BufferRecord :=
  ⟨rowId, payloadToJson p, now⟩

/-- The decode step `_flush_buffer` applies to a drained row. -/
def flushDecode (r : BufferRecord) : Option TelemetryPayload :=
  payloadFromJson r.payload_json

/-! ## C9: store/flush round trip -/

/-- C9: for every telemetry payload, storing it in the buffer
(serialization into the persisted record) and decoding it on flush
(deserialization) yields a payload equal to the original in all fields:
device_id, timestamp, data and payload_id. -/
theorem C9_store_flush_roundtrip (p : TelemetryPayload) (now : ℚ) (rowId : Nat) :
    flushDecode (storePayload p now rowId) = some p := by
  cases p
  rfl

/-! ## Health monitor (`health.py`) -/

/-- The frozen `HealthStatus` dataclass. -/
structure HealthStatus where
  cpu_percent : ℚ
  memory_percent : ℚ
  temperature_celsius : ℚ
  is_overheating : Bool
  disk_usage_percent : ℚ
  timestamp : ℚ

/-- Body of `HealthMonitor._collect_metrics`, given the sampled readings:
builds the snapshot with the derived flag
`temperature > 0 and temperature >= self._temp_threshold`. -/
def collect_metrics (cpu memory disk temperature now temp_threshold : ℚ) :
    HealthStatus :=
  { cpu_percent := cpu, memory_percent := memory,
    temperature_celsius := temperature,
    is_overheating := decide (temperature > 0) && decide (temperature ≥ temp_threshold),
    disk_usage_percent := disk, timestamp := now }

/-! ## C8: overheating flag -/

/-- C8: for every sampled temperature and threshold, the snapshot's
overheating flag is true exactly when the temperature is positive and at
least the threshold; in particular a 0.0 reading (sensor unavailable) is
never classified as overheating, for any threshold. -/
theorem C8_overheating_flag (cpu memory disk temperature now temp_threshold : ℚ) :
    ((collect_metrics cpu memory disk temperature now temp_threshold).is_overheating = true ↔
      (temperature > 0 ∧ temperature ≥ temp_threshold)) ∧
    (∀ T : ℚ, (collect_metrics cpu memory disk 0 now T).is_overheating = false) := by
  constructor
  · simp [collect_metrics]
  · intro T
    simp [collect_metrics]

/-! ## Send path with retry and circuit breaker (`telemetry.py`) -/

/-- What one attempt of the `_send_with_retry` loop observes: the breaker
refuses (`_should_attempt()` false, raising `CircuitBreakerError`), the
transport function returns `r`, or the transport raises a transient
error (connection/timeout/OS). -/
inductive AttemptObs where
  | refused
  | sendOk (r : Bool)
  | sendErr

/-- Errors that escape `_send_with_retry`: the re-raised
`CircuitBreakerError`, or `ConnectionError` after exhausting attempts. -/
inductive SendErr where
  | circuitOpen
  | connectionError
deriving DecidableEq, Repr

/-- The `for attempt in range(1, max+1)` loop of `_send_with_retry`,
threading the number of transport-function invocations: a refusal raises
immediately (no transport call); a transport result returns; a transient
error counts the call, records the failure and moves to the next
attempt; running out of attempts raises `ConnectionError`. -/
def send_retry_loop (obs : Nat → AttemptObs) :
    Nat → Nat → Nat → Except SendErr Bool × Nat
  | _, 0, calls => (.error .connectionError, calls)
  | attempt, rem + 1, calls =>
    match obs attempt with
    | .refused => (.error .circuitOpen, calls)
    | .sendOk r => (.ok r, calls + 1)
    | .sendErr => send_retry_loop obs (attempt + 1) rem (calls + 1)

/-- Model of `TelemetryClient._send_with_retry`: result together with the
number of `_send_fn` invocations. -/
def send_with_retry (maxAttempts : Nat) (obs : Nat → AttemptObs) :
    Except SendErr Bool × Nat :=
  send_retry_loop obs 1 maxAttempts 0

/-- Result of `TelemetryClient.send`: the returned boolean, the buffer
state after the call, the number of buffer inserts performed, and the
number of transport invocations. -/
structure SendOutcome where
  result : Bool
  buffer : BufState
  inserts : Nat
  transportCalls : Nat

/-- Records removed by one `DELETE ... ORDER BY created_at ASC LIMIT 1`:
the first row holding the minimum `created_at` is removed. -/
def removeMin : List BufferRecord → List BufferRecord
  | [] => []
  | b :: rest =>
    if rest.all (fun r => b.created_at ≤ r.created_at) then rest
    else b :: removeMin rest

/-- Iterated oldest-first deletion
(`DELETE ... ORDER BY created_at ASC LIMIT excess`). -/
def dropOldest : Nat → List BufferRecord → List BufferRecord
  | 0, buf => buf
  | k + 1, buf => dropOldest k (removeMin buf)

/-- Model of `TelemetryClient._enforce_buffer_limit`: if the row count
exceeds `maxRows`, delete the `count - maxRows` oldest rows by
`created_at`. -/
def enforce_buffer_limit (maxRows : Nat) (buf : List BufferRecord) :
    List BufferRecord :=
  if buf.length > maxRows then dropOldest (buf.length - maxRows) buf else buf

/-- Model of `TelemetryClient._store_locally`: append the serialized
payload with a fresh autoincrement rowid and `created_at = time.time()`,
then enforce the buffer limit. -/
def store_locally (maxRows : Nat) (pj : Json) (now : ℚ) (st : BufState) :
    BufState :=
  ⟨st.nextId + 1,
   enforce_buffer_limit maxRows (st.rows ++ [⟨st.nextId, pj, now⟩])⟩

/-- Model of `TelemetryClient.send`: attempt delivery through
retry + circuit breaker; on any raised error (`CircuitBreakerError` or
otherwise) store the payload locally once and return `False`; on success
return `True` with the buffer untouched. -/
def send (maxRows maxAttempts : Nat) (obs : Nat → AttemptObs) (p : TelemetryPayload)
    (now : ℚ) (st : BufState) : SendOutcome :=
  match send_with_retry maxAttempts obs with
  | (.ok _, calls) => ⟨true, st, 0, calls⟩
  | (.error _, calls) =>
      ⟨false, store_locally maxRows (payloadToJson p) now st, 1, calls⟩

/-! ## C6: circuit-open short-circuit -/

/-- C6: whenever the circuit breaker refuses the first attempt (reports
OPEN), `send` performs exactly one buffer insert, invokes the transport
function zero times, makes no further retry attempt, and returns false. -/
theorem C6_circuit_open_short_circuit (maxRows maxAttempts : Nat)
    (obs : Nat → AttemptObs) (p : TelemetryPayload) (now : ℚ) (st : BufState)
    (hmax : 1 ≤ maxAttempts) (hopen : obs 1 = .refused) :
    send maxRows maxAttempts obs p now st =
      ⟨false, store_locally maxRows (payloadToJson p) now st, 1, 0⟩ := by
  obtain ⟨rem, rfl⟩ : ∃ rem, maxAttempts = rem + 1 :=
    ⟨maxAttempts - 1, (Nat.succ_pred_eq_of_pos hmax).symm⟩
  unfold send send_with_retry
  rw [send_retry_loop, hopen]

/-- An always-open breaker. -/
def alwaysRefused : Nat → AttemptObs := fun _ => .refused

/-- A sample payload for the circuit-open witness. -/
def witnessPayload : TelemetryPayload :=
  { device_id := "edge-001", timestamp := 10, data := [("temperature", .num 42)],
    payload_id := "p-1" }

theorem C6_circuit_open_short_circuit_witness :
    1 ≤ 3 ∧ alwaysRefused 1 = .refused ∧
    send 10000 3 alwaysRefused witnessPayload 11 ⟨0, []⟩ =
      ⟨false, store_locally 10000 (payloadToJson witnessPayload) 11 ⟨0, []⟩, 1, 0⟩ :=
  ⟨by decide, rfl,
    C6_circuit_open_short_circuit 10000 3 alwaysRefused witnessPayload 11 ⟨0, []⟩
      (by decide) rfl⟩

/-! ## C5: bounded FIFO buffer -/

theorem removeMin_length (buf : List BufferRecord) :
    (removeMin buf).length = buf.length - 1 := by
  induction buf with
  | nil => rfl
  | cons b rest ih =>
    rw [removeMin]
    split
    next h => simp
    next h =>
      cases rest with
      | nil => exact absurd rfl h
      | cons c cs =>
        simp only [List.length_cons, ih]
        omega

theorem dropOldest_length (k : Nat) (buf : List BufferRecord) :
    (dropOldest k buf).length = buf.length - k := by
  induction k generalizing buf with
  | zero => rfl
  | succ k ih =>
    rw [dropOldest, ih, removeMin_length]
    omega

theorem enforce_buffer_limit_length_le (maxRows : Nat) (buf : List BufferRecord) :
    (enforce_buffer_limit maxRows buf).length ≤ maxRows := by
  rw [enforce_buffer_limit]
  split
  next h => rw [dropOldest_length]; omega
  next h => omega

/-- On a strictly `created_at`-sorted list, deleting the single oldest
record removes the head. -/
theorem removeMin_sorted (buf : List BufferRecord)
    (hs : buf.Pairwise (fun a b => a.created_at < b.created_at)) :
    removeMin buf = buf.tail := by
  cases buf with
  | nil => rfl
  | cons b rest =>
    rw [List.pairwise_cons] at hs
    have hall : rest.all (fun r => b.created_at ≤ r.created_at) = true := by
      simp only [List.all_eq_true, decide_eq_true_eq]
      intro r hr
      exact le_of_lt (hs.1 r hr)
    rw [removeMin, if_pos hall]
    rfl

/-- The record produced by the i-th insertion of a timestamped insertion
sequence (rowid i, payload i, created_at i). -/
def seqRec (p : Nat → Json) (t : Nat → ℚ) (i : Nat) : BufferRecord :=
  ⟨i, p i, t i⟩

/-- Buffer state after the first n of the sequence's insertions, starting
from an empty buffer. -/
def insertSeq (L : Nat) (p : Nat → Json) (t : Nat → ℚ) : Nat → BufState
  | 0 => ⟨0, []⟩
  | n + 1 => store_locally L (p n) (t n) (insertSeq L p t n)

theorem seqRecs_sorted (p : Nat → Json) (t : Nat → ℚ)
    (hmono : ∀ i j, i < j → t i < t j) (n d : Nat) :
    (((List.range n).map (seqRec p t)).drop d).Pairwise
      (fun a b => a.created_at < b.created_at) := by
  apply List.Pairwise.sublist (List.drop_sublist d _)
  exact List.Pairwise.map (seqRec p t) (fun a b hab => hmono a b hab)
    (List.pairwise_lt_range n)

/-- Shape of the buffer along a strictly-monotone insertion sequence:
after k insertions the rows are exactly the suffix of the first k
sequence records beginning at index k - L. -/
theorem insertSeq_spec (L : Nat) (p : Nat → Json) (t : Nat → ℚ)
    (hL : 0 < L) (hmono : ∀ i j, i < j → t i < t j) (n : Nat) :
    (insertSeq L p t n).nextId = n ∧
    (insertSeq L p t n).rows =
      ((List.range n).map (seqRec p t)).drop (n - L) := by
  induction n with
  | zero => exact ⟨rfl, by simp [insertSeq]⟩
  | succ k ih =>
    obtain ⟨ihId, ihRows⟩ := ih
    have hnext : (insertSeq L p t (k + 1)).nextId = k + 1 := by
      simp only [insertSeq, store_locally, ihId]
    refine ⟨hnext, ?_⟩
    have hlenA : k - L ≤ ((List.range k).map (seqRec p t)).length := by
      simp [Nat.sub_le]
    have happ : ((List.range (k + 1)).map (seqRec p t)).drop (k - L) =
        ((List.range k).map (seqRec p t)).drop (k - L) ++ [seqRec p t k] := by
      rw [List.range_succ, List.map_append, List.drop_append_of_le_length hlenA]
      rfl
    have hrows1 : (insertSeq L p t (k + 1)).rows =
        enforce_buffer_limit L
          (((List.range (k + 1)).map (seqRec p t)).drop (k - L)) := by
      simp only [insertSeq, store_locally, ihId, ihRows, happ]
      rfl
    rw [hrows1]
    have hlenfull : (((List.range (k + 1)).map (seqRec p t)).drop (k - L)).length =
        (k + 1) - (k - L) := by
      simp [List.length_drop]
    by_cases hk : k + 1 ≤ L
    · have h0 : k - L = 0 := by omega
      have h0' : k + 1 - L = 0 := by omega
      rw [enforce_buffer_limit, if_neg, h0, h0']
      rw [hlenfull, h0]
      omega
    · have hgt : (((List.range (k + 1)).map (seqRec p t)).drop (k - L)).length = L + 1 := by
        rw [hlenfull]; omega
      rw [enforce_buffer_limit, if_pos, hgt]
      · have hone : L + 1 - L = 1 := by omega
        rw [hone, dropOldest, dropOldest,
          removeMin_sorted _ (seqRecs_sorted p t hmono (k + 1) (k - L)),
          List.tail_drop]
        have : k - L + 1 = k + 1 - L := by omega
        rw [this]
      · rw [hgt]; omega

/-- C5: along every strictly-monotonically-timestamped sequence of N
insertions into a count-bounded buffer of capacity L (with N > L): after
every insertion's enforcement step the buffered count never exceeds L,
and after all N insertions exactly the L most-recently-created records
remain (the suffix of the insertion sequence), the oldest N - L having
been evicted. -/
theorem C5_buffer_fifo_eviction (L N : Nat) (p : Nat → Json) (t : Nat → ℚ)
    (hL : 0 < L) (hLN : L < N) (hmono : ∀ i j, i < j → t i < t j) :
    (∀ k, (insertSeq L p t k).rows.length ≤ L) ∧
    (insertSeq L p t N).rows =
      ((List.range N).map (seqRec p t)).drop (N - L) ∧
    (insertSeq L p t N).rows.length = L := by
  refine ⟨?_, (insertSeq_spec L p t hL hmono N).2, ?_⟩
  · intro k
    cases k with
    | zero => simp [insertSeq]
    | succ m =>
      simp only [insertSeq, store_locally]
      exact enforce_buffer_limit_length_le L _
  · rw [(insertSeq_spec L p t hL hmono N).2]
    simp [List.length_drop]
    omega

/-- Timestamps 0, 1, 2, ... for the witness sequence. -/
def natTimes : Nat → ℚ := fun i => (i : ℚ)

theorem C5_buffer_fifo_eviction_witness :
    ((0 : Nat) < 2 ∧ (2 : Nat) < 3) ∧
    (∀ k, (insertSeq 2 (fun _ => Json.null) natTimes k).rows.length ≤ 2) ∧
    (insertSeq 2 (fun _ => Json.null) natTimes 3).rows =
      ((List.range 3).map (seqRec (fun _ => Json.null) natTimes)).drop 1 ∧
    (insertSeq 2 (fun _ => Json.null) natTimes 3).rows.length = 2 := by
  refine ⟨⟨by decide, by decide⟩, ?_⟩
  exact C5_buffer_fifo_eviction 2 3 (fun _ => Json.null) natTimes
    (by decide) (by decide)
    (fun i j hij => by simpa [natTimes] using (Nat.cast_lt (α := ℚ)).mpr hij)
